import Mathlib

/-!
Verification of the transport / session / dispatch core of the docker-agent
MCP server (sources: src/mcp/docker-agent/src/mcp_server.rs and
src/mcp/docker-agent/src/http_transport.rs), as a shallow embedding.

JSON values are modelled by the inductive `Json` below.  Numbers are modelled
as integers: every number occurring in this core (request ids, `tail_lines`,
error codes) is integral.  Serialization of a structure to a JSON text
(serde_json `to_string`) is modelled in two steps: a `toJson` function giving
the serialized object (field list, in declaration order, with
skip-if-absent fields omitted), and `Json.render` giving the text.
-/

/-- Model of serde_json `Value`. -/
inductive Json where
  | null
  | bool (b : Bool)
  | num (n : Int)
  | str (s : String)
  | arr (xs : List Json)
  | obj (fields : List (String × Json))

/-- Lookup of a key in the field list of a JSON object. -/
def lookupField : List (String × Json) → String → Option Json
  | [], _ => none
  | (k, v) :: rest, key => if k == key then some v else lookupField rest key

/-- Model of `Value::get(key)`: field lookup on objects, `None` otherwise. -/
def Json.getField? : Json → String → Option Json
  | .obj fields, key => lookupField fields key
  | _, _ => none

/-- Model of `Value::as_str`: `Some` exactly on strings. -/
def Json.asStr? : Json → Option String
  | .str s => some s
  | _ => none

/-- JSON text escaping of one character (serde_json escapes quotes,
backslashes and control characters). -/
def escapeChar (c : Char) : String :=
  if c = '"' then "\\\""
  else if c = '\\' then "\\\\"
  else if c = '\n' then "\\n"
  else if c = '\r' then "\\r"
  else if c = '\t' then "\\t"
  else if c.toNat < 32 then "\\u" ++ (Nat.toDigits 16 c.toNat).asString
  else String.singleton c

/-- JSON text escaping of a string body. -/
def escapeString (s : String) : String :=
  String.join (s.toList.map escapeChar)

mutual

/-- Model of serde_json serialization of a `Value` to text. -/
def Json.render : Json → String
  | .null => "null"
  | .bool b => if b then "true" else "false"
  | .num n => toString n
  | .str s => "\"" ++ escapeString s ++ "\""
  | .arr xs => "[" ++ renderArr xs ++ "]"
  | .obj fields => "\x7b" ++ renderObj fields ++ "\x7d"

/-- Comma-separated rendering of array elements. -/
def renderArr : List Json → String
  | [] => ""
  | [x] => Json.render x
  | x :: rest => Json.render x ++ "," ++ renderArr rest

/-- Comma-separated rendering of object fields. -/
def renderObj : List (String × Json) → String
  | [] => ""
  | [(k, v)] => "\"" ++ escapeString k ++ "\":" ++ Json.render v
  | (k, v) :: rest =>
      "\"" ++ escapeString k ++ "\":" ++ Json.render v ++ "," ++ renderObj rest

end

/-- JSON-RPC 2.0 request (struct `JsonRpcRequest` in mcp_server.rs).  The
`jsonrpc` version string is carried but never inspected, exactly as in the
source; `params` defaults to `null` when absent (serde default). -/
structure JsonRpcRequest where
  jsonrpc : String
  id : Option Json
  method : String
  params : Json

/-- JSON-RPC 2.0 error object (struct `JsonRpcError` in mcp_server.rs). -/
structure JsonRpcError where
  code : Int
  message : String
  data : Option Json

/-- JSON-RPC 2.0 response (struct `JsonRpcResponse` in mcp_server.rs);
`result` and `error` are both optional and skipped by serialization when
absent. -/
structure JsonRpcResponse where
  jsonrpc : String
  id : Option Json
  result : Option Json
  error : Option JsonRpcError

/-- Constructor `JsonRpcResponse::success`. -/
def JsonRpcResponse.success (id : Option Json) (result : Json) : JsonRpcResponse :=
  { jsonrpc := "2.0", id := id, result := some result, error := none }

/-- Constructor `JsonRpcResponse::error` (named `mkError` here because the
field `error` already takes that name in Lean). -/
def JsonRpcResponse.mkError (id : Option Json) (code : Int) (message : String) :
    JsonRpcResponse :=
  { jsonrpc := "2.0", id := id
    result := none
    error := some { code := code, message := message, data := none } }

/-- Serialization of a `JsonRpcError` to its JSON object (derived serde
`Serialize`; `data` is skipped when absent). -/
def JsonRpcError.toJson (e : JsonRpcError) : Json :=
  .obj ([("code", .num e.code), ("message", .str e.message)] ++
    (match e.data with
     | none => []
     | some d => [("data", d)]))

/-- Serialization of a `JsonRpcResponse` to its JSON object (derived serde
`Serialize`; `id`, `result` and `error` are skipped when absent, fields in
declaration order). -/
def JsonRpcResponse.toJson (r : JsonRpcResponse) : Json :=
  .obj ([("jsonrpc", .str r.jsonrpc)] ++
    (match r.id with
     | none => []
     | some v => [("id", v)]) ++
    (match r.result with
     | none => []
     | some v => [("result", v)]) ++
    (match r.error with
     | none => []
     | some e => [("error", e.toJson)]))

/-- Optional serde struct field holding a JSON value: both an absent field
and a field bound to JSON `null` decode to `None` (the serde rule for
`Option` fields — `Option<Value>` intercepts `null` before `Value` could
absorb it). -/
def optValueField (j : Json) (k : String) : Option Json :=
  match j.getField? k with
  | none => none
  | some .null => none
  | some v => some v

/-- Deserialization of a `JsonRpcError` from a JSON value (derived serde
`Deserialize`): `code` and `message` required, `data` optional, with an
absent or `null` `data` field decoding to `None`. -/
def JsonRpcError.fromJson? (j : Json) : Option JsonRpcError :=
  match j.getField? "code", j.getField? "message" with
  | some (.num c), some (.str m) =>
      some { code := c, message := m, data := optValueField j "data" }
  | _, _ => none

/-- Deserialization of a `JsonRpcResponse` from a JSON value (derived serde
`Deserialize`): `jsonrpc` a required string; `id`, `result` and `error`
optional, where an absent field and a `null` field both decode to `None`
(the serde `Option` rule). -/
def JsonRpcResponse.fromJson? (j : Json) : Option JsonRpcResponse :=
  match j.getField? "jsonrpc" with
  | some (.str v) =>
      match j.getField? "error" with
      | none =>
          some { jsonrpc := v, id := optValueField j "id"
                 result := optValueField j "result", error := none }
      | some .null =>
          some { jsonrpc := v, id := optValueField j "id"
                 result := optValueField j "result", error := none }
      | some ej =>
          match JsonRpcError.fromJson? ej with
          | none => none
          | some e =>
              some { jsonrpc := v, id := optValueField j "id"
                     result := optValueField j "result", error := some e }
  | _ => none

/-!
Tool argument structures (tools.rs) and their serde deserialization from a
JSON value (`serde_json::from_value`).  Deserialization failure carries a
message string (`e.to_string()` in the source); the exact wording of serde
messages is modelled, their structure (which inputs fail) follows serde:
a struct requires a JSON object, fields without a serde default are
required, `Option` fields accept absence or `null`, unknown fields are
ignored.
-/

/-- Arguments for starting a container (struct `DockerRunArgs`). -/
structure DockerRunArgs where
  image : String
  command : Option (List String)
  env_vars : List String
  volume_mounts : List String
  name : Option String

/-- Arguments for fetching logs (struct `DockerLogsArgs`). -/
structure DockerLogsArgs where
  container_id : String
  since : Option String
  tail_lines : Option Nat
  stdout : Option Bool
  stderr : Option Bool

/-- Arguments for executing a command (struct `DockerExecArgs`). -/
structure DockerExecArgs where
  container_id : String
  command : String

/-- Arguments for stopping a container (struct `DockerStopArgs`). -/
structure DockerStopArgs where
  container_id : String

/-- Decode a JSON string. -/
def decodeStr (v : Json) : Except String String :=
  match v with
  | .str s => .ok s
  | _ => .error "invalid type: expected a string"

/-- Decode a JSON array of strings. -/
def decodeStrList (v : Json) : Except String (List String) :=
  match v with
  | .arr xs => xs.mapM decodeStr
  | _ => .error "invalid type: expected a sequence"

/-- Decode a u64 (a non-negative integral JSON number). -/
def decodeU64 (v : Json) : Except String Nat :=
  match v with
  | .num n => if n < 0 then .error "invalid value: expected u64" else .ok n.toNat
  | _ => .error "invalid type: expected u64"

/-- Decode a JSON boolean. -/
def decodeBool (v : Json) : Except String Bool :=
  match v with
  | .bool b => .ok b
  | _ => .error "invalid type: expected a boolean"

/-- Required struct field: absence is a deserialization error. -/
def reqField (j : Json) (k : String) (dec : Json → Except String α) :
    Except String α :=
  match j.getField? k with
  | none => .error ("missing field " ++ k)
  | some v => dec v

/-- Optional struct field: absence or `null` decodes to `none`. -/
def optField (j : Json) (k : String) (dec : Json → Except String α) :
    Except String (Option α) :=
  match j.getField? k with
  | none => .ok none
  | some .null => .ok none
  | some v => (dec v).map some

/-- Deserialization of `DockerRunArgs` (derived serde `Deserialize`). -/
def DockerRunArgs.fromJson? (j : Json) : Except String DockerRunArgs :=
  match j with
  | .obj _ => do
    let image ← reqField j "image" decodeStr
    let command ← optField j "command" decodeStrList
    let env_vars ← reqField j "env_vars" decodeStrList
    let volume_mounts ← reqField j "volume_mounts" decodeStrList
    let name ← optField j "name" decodeStr
    .ok { image := image, command := command, env_vars := env_vars
          volume_mounts := volume_mounts, name := name }
  | _ => .error "invalid type: expected a map"

/-- Deserialization of `DockerLogsArgs` (derived serde `Deserialize`). -/
def DockerLogsArgs.fromJson? (j : Json) : Except String DockerLogsArgs :=
  match j with
  | .obj _ => do
    let container_id ← reqField j "container_id" decodeStr
    let since ← optField j "since" decodeStr
    let tail_lines ← optField j "tail_lines" decodeU64
    let stdout ← optField j "stdout" decodeBool
    let stderr ← optField j "stderr" decodeBool
    .ok { container_id := container_id, since := since, tail_lines := tail_lines
          stdout := stdout, stderr := stderr }
  | _ => .error "invalid type: expected a map"

/-- Deserialization of `DockerExecArgs` (derived serde `Deserialize`). -/
def DockerExecArgs.fromJson? (j : Json) : Except String DockerExecArgs :=
  match j with
  | .obj _ => do
    let container_id ← reqField j "container_id" decodeStr
    let command ← reqField j "command" decodeStr
    .ok { container_id := container_id, command := command }
  | _ => .error "invalid type: expected a map"

/-- Deserialization of `DockerStopArgs` (derived serde `Deserialize`). -/
def DockerStopArgs.fromJson? (j : Json) : Except String DockerStopArgs :=
  match j with
  | .obj _ => do
    let container_id ← reqField j "container_id" decodeStr
    .ok { container_id := container_id }
  | _ => .error "invalid type: expected a map"

/-!
The Operation Executor boundary (docker_manager.rs).  Its internals are
out of scope for the spec; the dispatcher consumes the call contract only,
so a `DockerManager` is modelled as a record of pure oracle functions, one
per operation, each returning either a success payload or a failure string
(the source maps errors through `e.to_string()`).  Time values from the
external time crate are opaque string tokens here: no claim inspects them.
-/

/-- Model of `time::OffsetDateTime` (external time crate); opaque token. -/
def OffsetDateTime := String

/-- Model of RFC3339 parsing from the external time crate.  No claim depends
on which strings parse; every string is treated as parsing, and the token is
the string. -/
def parseRfc3339 (s : String) : Option OffsetDateTime := some s

/-- Model of RFC3339 formatting (with `unwrap_or_default`) from the external
time crate. -/
def formatRfc3339 (t : OffsetDateTime) : String := t

/-- Container lifecycle status (enum `ContainerStatus`). -/
inductive ContainerStatus where
  | Running
  | Stopped
  | Exited (code : Int)
  | Error (msg : String)

/-- Tracked container record (struct `ContainerState`). -/
structure ContainerState where
  id : String
  name : String
  image : String
  started_at : OffsetDateTime
  status : ContainerStatus

/-- Configuration for starting a new container (struct `StartConfig`). -/
structure StartConfig where
  image : String
  command : Option (List String)
  env_vars : List String
  volume_mounts : List (String × String)
  name : Option String

/-- Log query (struct `LogQuery`). -/
structure LogQuery where
  container_id : String
  since : Option OffsetDateTime
  tail_lines : Option Nat
  include_stdout : Bool
  include_stderr : Bool

/-- Logs output (struct `LogsOutput`). -/
structure LogsOutput where
  stdout : List String
  stderr : List String
  timestamp : Option OffsetDateTime

/-- The Operation Executor: one oracle function per container operation,
errors already rendered to strings. -/
structure DockerManager where
  start_container : StartConfig → Except String String
  get_logs : LogQuery → Except String LogsOutput
  exec_command : String → String → Except String String
  stop_container : String → Except String Unit
  list_containers : List ContainerState

/-!
Tool result structures (tools.rs) with their serde serialization.  Only
`ToolResult.error` carries a skip-if-absent attribute; `DockerLogsResult`
serializes an absent timestamp as `null`.
-/

/-- Tool result response (struct `ToolResult`). -/
structure ToolResult where
  success : Bool
  output : String
  error : Option String

/-- Container run result (struct `DockerRunResult`). -/
structure DockerRunResult where
  success : Bool
  container_id : String
  message : String

/-- Logs fetch result (struct `DockerLogsResult`). -/
structure DockerLogsResult where
  success : Bool
  stdout : List String
  stderr : List String
  timestamp : Option String

/-- Serialization of `ToolResult` (derived serde `Serialize`). -/
def ToolResult.toJson (r : ToolResult) : Json :=
  .obj ([("success", .bool r.success), ("output", .str r.output)] ++
    (match r.error with
     | none => []
     | some e => [("error", .str e)]))

/-- Serialization of `DockerRunResult` (derived serde `Serialize`). -/
def DockerRunResult.toJson (r : DockerRunResult) : Json :=
  .obj [("success", .bool r.success), ("container_id", .str r.container_id),
        ("message", .str r.message)]

/-- Serialization of `DockerLogsResult` (derived serde `Serialize`). -/
def DockerLogsResult.toJson (r : DockerLogsResult) : Json :=
  .obj [("success", .bool r.success),
        ("stdout", .arr (r.stdout.map Json.str)),
        ("stderr", .arr (r.stderr.map Json.str)),
        ("timestamp", match r.timestamp with
          | none => .null
          | some t => .str t)]

/-!
Post-decode tool bodies.  The code between argument deserialization and
envelope construction is textually identical in mcp_server.rs
(`handle_docker_*`) and http_transport.rs (`handle_tools_call` arms), so it
is factored into one helper per tool, used by both surface embeddings.
-/

/-- Splitting of a character list at the first colon. -/
def splitAtFirstColon : List Char → Option (List Char × List Char)
  | [] => none
  | c :: rest =>
      if c = ':' then some ([], rest)
      else
        match splitAtFirstColon rest with
        | none => none
        | some (a, b) => some (c :: a, b)

/-- Splitting of one volume mount string at the first colon
(`m.splitn(2, ':')` yielding two pieces); entries without a colon are
dropped by the caller. -/
def splitVolumeMount (m : String) : Option (String × String) :=
  match splitAtFirstColon m.data with
  | none => none
  | some (a, b) => some (String.mk a, String.mk b)

/-- Construction of the `StartConfig` from decoded run arguments. -/
def DockerRunArgs.toStartConfig (args : DockerRunArgs) : StartConfig :=
  { image := args.image, command := args.command, env_vars := args.env_vars
    volume_mounts := args.volume_mounts.filterMap splitVolumeMount
    name := args.name }

/-- Construction of the `LogQuery` from decoded logs arguments: the `since`
string is parsed as RFC3339 with failures dropped to `none`; stdout and
stderr inclusion default to true. -/
def DockerLogsArgs.toLogQuery (args : DockerLogsArgs) : LogQuery :=
  { container_id := args.container_id
    since := args.since.bind parseRfc3339
    tail_lines := args.tail_lines
    include_stdout := args.stdout.getD true
    include_stderr := args.stderr.getD true }

/-- Body of the docker_run tool after decoding: start the container and
serialize a `DockerRunResult`. -/
def runDockerRun (m : DockerManager) (args : DockerRunArgs) : Except String String :=
  match m.start_container args.toStartConfig with
  | .error e => .error e
  | .ok container_id =>
      .ok (Json.render (DockerRunResult.toJson
        { success := true, container_id := container_id
          message := "Container started: " ++ container_id }))

/-- Body of the docker_logs tool after decoding: fetch logs and serialize a
`DockerLogsResult`. -/
def runDockerLogs (m : DockerManager) (args : DockerLogsArgs) : Except String String :=
  match m.get_logs args.toLogQuery with
  | .error e => .error e
  | .ok logs =>
      .ok (Json.render (DockerLogsResult.toJson
        { success := true, stdout := logs.stdout, stderr := logs.stderr
          timestamp := logs.timestamp.map formatRfc3339 }))

/-- Body of the docker_exec tool after decoding: execute the command and
serialize a `ToolResult`. -/
def runDockerExec (m : DockerManager) (args : DockerExecArgs) : Except String String :=
  match m.exec_command args.container_id args.command with
  | .error e => .error e
  | .ok output =>
      .ok (Json.render (ToolResult.toJson
        { success := true, output := output, error := none }))

/-- Body of the docker_stop tool after decoding: stop the container and
serialize a `ToolResult`. -/
def runDockerStop (m : DockerManager) (args : DockerStopArgs) : Except String String :=
  match m.stop_container args.container_id with
  | .error e => .error e
  | .ok _ =>
      .ok (Json.render (ToolResult.toJson
        { success := true
          output := "Container " ++ args.container_id ++ " stopped"
          error := none }))

/-- Body of the docker_list tool: serialize the tracked container list. -/
def runDockerList (m : DockerManager) : Except String String :=
  let list : List Json := m.list_containers.map (fun c =>
    .obj [("id", .str c.id), ("name", .str c.name), ("image", .str c.image),
          ("started_at", .str (formatRfc3339 c.started_at)),
          ("status", .str (match c.status with
            | .Running => "running"
            | .Stopped => "stopped"
            | .Exited _ => "exited"
            | .Error _ => "error"))])
  .ok (Json.render (.obj [("containers", .arr list)]))

/-- Modelled from the spec: the crate version string (`CARGO_PKG_VERSION`);
the manifest is not among the sources and no claim inspects the value. -/
def CARGO_PKG_VERSION : String := "0.1.0"

/-!
Line-stream surface (mcp_server.rs).  The stdio loop itself is I/O; the
claims are about the per-request dispatcher `handle_request` and the
handlers below, which are embedded here.
-/

namespace McpServer

/-- Handler for the initialize method (`handle_initialize`). -/
def handle_initialize (id : Option Json) : JsonRpcResponse :=
  JsonRpcResponse.success id
    (.obj [("protocolVersion", .str "2024-11-05"),
           ("capabilities", .obj [("tools", .obj [])]),
           ("serverInfo", .obj [("name", .str "docker-agent"),
                                ("version", .str CARGO_PKG_VERSION)])])

/-- The static tool catalog entry list of `handle_tools_list`: name,
description and input schema of the five tools, serialized as in `McpTool`. -/
def toolCatalog : List Json :=
  [.obj [("name", .str "docker_run"),
         ("description", .str "Start a long-running Docker container"),
         ("inputSchema", .obj
           [("type", .str "object"),
            ("properties", .obj
              [("image", .obj [("type", .str "string"),
                 ("description", .str "Docker image to run")]),
               ("command", .obj [("type", .str "array"),
                 ("items", .obj [("type", .str "string")]),
                 ("description", .str "Command to run")]),
               ("env_vars", .obj [("type", .str "array"),
                 ("items", .obj [("type", .str "string")]),
                 ("description", .str "Environment variables (KEY=value)")]),
               ("volume_mounts", .obj [("type", .str "array"),
                 ("items", .obj [("type", .str "string")]),
                 ("description", .str "Volume mounts (host:container)")]),
               ("name", .obj [("type", .str "string"),
                 ("description", .str "Container name")])]),
            ("required", .arr [.str "image"])])],
   .obj [("name", .str "docker_logs"),
         ("description", .str
           "Fetch logs from a running container (supports incremental fetching)"),
         ("inputSchema", .obj
           [("type", .str "object"),
            ("properties", .obj
              [("container_id", .obj [("type", .str "string"),
                 ("description", .str "Container ID")]),
               ("since", .obj [("type", .str "string"),
                 ("description", .str "ISO8601 timestamp to fetch logs since")]),
               ("tail_lines", .obj [("type", .str "integer"),
                 ("description", .str "Number of lines from end")]),
               ("stdout", .obj [("type", .str "boolean"),
                 ("description", .str "Include stdout (default: true)")]),
               ("stderr", .obj [("type", .str "boolean"),
                 ("description", .str "Include stderr (default: true)")])]),
            ("required", .arr [.str "container_id"])])],
   .obj [("name", .str "docker_exec"),
         ("description", .str "Execute a one-off command in a running container"),
         ("inputSchema", .obj
           [("type", .str "object"),
            ("properties", .obj
              [("container_id", .obj [("type", .str "string"),
                 ("description", .str "Container ID")]),
               ("command", .obj [("type", .str "string"),
                 ("description", .str "Command to execute")])]),
            ("required", .arr [.str "container_id", .str "command"])])],
   .obj [("name", .str "docker_stop"),
         ("description", .str "Stop and remove a container"),
         ("inputSchema", .obj
           [("type", .str "object"),
            ("properties", .obj
              [("container_id", .obj [("type", .str "string"),
                 ("description", .str "Container ID")])]),
            ("required", .arr [.str "container_id"])])],
   .obj [("name", .str "docker_list"),
         ("description", .str "List all tracked containers"),
         ("inputSchema", .obj
           [("type", .str "object"),
            ("properties", .obj [])])]]

/-- Handler for the tools/list method (`handle_tools_list`). -/
def handle_tools_list (id : Option Json) : JsonRpcResponse :=
  JsonRpcResponse.success id (.obj [("tools", .arr toolCatalog)])

/-- Handler `handle_docker_run`: decode (errors become the string of the
serde error and flow into the tool-level error path), then run. -/
def handle_docker_run (manager : DockerManager) (args : Json) :
    Except String String :=
  match DockerRunArgs.fromJson? args with
  | .error e => .error e
  | .ok a => runDockerRun manager a

/-- Handler `handle_docker_logs`. -/
def handle_docker_logs (manager : DockerManager) (args : Json) :
    Except String String :=
  match DockerLogsArgs.fromJson? args with
  | .error e => .error e
  | .ok a => runDockerLogs manager a

/-- Handler `handle_docker_exec`. -/
def handle_docker_exec (manager : DockerManager) (args : Json) :
    Except String String :=
  match DockerExecArgs.fromJson? args with
  | .error e => .error e
  | .ok a => runDockerExec manager a

/-- Handler `handle_docker_stop`. -/
def handle_docker_stop (manager : DockerManager) (args : Json) :
    Except String String :=
  match DockerStopArgs.fromJson? args with
  | .error e => .error e
  | .ok a => runDockerStop manager a

/-- Handler for the tools/call method (`handle_tools_call` in
mcp_server.rs): extract the tool name and arguments, route by name, and
wrap the outcome in a success envelope, flagging failures with `isError`.
The Rust match on string literals is embedded as its sequential equality
chain. -/
def handle_tools_call (manager : DockerManager) (id : Option Json)
    (params : Json) : JsonRpcResponse :=
  let tool_name := ((params.getField? "name").bind Json.asStr?).getD ""
  let arguments := (params.getField? "arguments").getD (.obj [])
  let result : Except String String :=
    if tool_name == "docker_run" then handle_docker_run manager arguments
    else if tool_name == "docker_logs" then handle_docker_logs manager arguments
    else if tool_name == "docker_exec" then handle_docker_exec manager arguments
    else if tool_name == "docker_stop" then handle_docker_stop manager arguments
    else if tool_name == "docker_list" then runDockerList manager
    else .error ("Unknown tool: " ++ tool_name)
  match result with
  | .ok content =>
      JsonRpcResponse.success id
        (.obj [("content", .arr [.obj [("type", .str "text"),
                                       ("text", .str content)]])])
  | .error e =>
      JsonRpcResponse.success id
        (.obj [("content", .arr [.obj [("type", .str "text"),
                                       ("text", .str ("Error: " ++ e))]]),
               ("isError", .bool true)])

/-- The line-stream Protocol Dispatcher (`handle_request`): route one parsed
request by method name. -/
def handle_request (manager : DockerManager) (request : JsonRpcRequest) :
    JsonRpcResponse :=
  match request.method with
  | "initialize" => handle_initialize request.id
  | "tools/list" => handle_tools_list request.id
  | "tools/call" => handle_tools_call manager request.id request.params
  | "ping" => JsonRpcResponse.success request.id (.obj [])
  | _ => JsonRpcResponse.mkError request.id (-32601) "Method not found"

end McpServer

/-!
HTTP surface (http_transport.rs).  Header maps are modelled as association
lists with lowercase names (axum normalizes header names to lowercase;
lookup of a fixed lowercase constant is first-match).  A header value that
is not valid UTF-8 is outside the model: `to_str().ok()` failures coincide
with an absent header, which the model represents by omitting the entry.
The POST body reaches the handler as a string and goes through
`serde_json::from_str`; the model receives the body already classified as
either malformed (with the parse error message) or a parsed request.
HTTP response bodies are kept structured (`Json` value rather than its
rendered text) since text serialization is injective; the SSE stream of a
GET is represented by the id of the session whose channel it subscribed.
-/

/-- Header map model: lowercase names, first match wins. -/
def Headers := List (String × String)

/-- Lookup of a header value by (lowercase) name. -/
def getHeader (headers : Headers) (name : String) : Option String :=
  match headers with
  | [] => none
  | (k, v) :: rest => if k == name then some v else getHeader rest name

/-- Bounded broadcast channel model: the capacity bound and the number of
live receivers obtained by subscription. -/
structure BroadcastChannel where
  capacity : Nat
  receivers : Nat

/-- Message sent over SSE (struct `SseMessage`). -/
structure SseMessage where
  event_id : String
  data : String

/-- Session state for a connected client (struct `Session`). -/
structure Session where
  id : String
  created_at : OffsetDateTime
  tx : BroadcastChannel

/-- The Session Store map (`HashMap<String, Session>`), modelled as an
association list with map semantics. -/
def SessionStore := List (String × Session)

/-- Map insert (`HashMap::insert`): binds the key, replacing any previous
record. -/
def storeInsert (s : SessionStore) (k : String) (v : Session) : SessionStore :=
  (k, v) :: List.filter (fun p => !(p.1 == k)) s

/-- Map removal (`HashMap::remove(..).is_some()` gives the Bool
separately). -/
def storeRemove (s : SessionStore) (k : String) : SessionStore :=
  List.filter (fun p => !(p.1 == k)) s

/-- Map key membership (`HashMap::contains_key`). -/
def storeContains (s : SessionStore) (k : String) : Bool :=
  List.any s (fun p => p.1 == k)

/-- Map lookup (`HashMap::get`). -/
def storeGet? (s : SessionStore) (k : String) : Option Session :=
  Option.map Prod.snd (List.find? (fun p => p.1 == k) s)

/-- Registration of one more receiver on the channel of the named session
(`tx.subscribe()` in the GET handler). -/
def storeSubscribe (s : SessionStore) (k : String) : SessionStore :=
  List.map (fun p =>
    if p.1 == k then
      (p.1, { p.2 with tx := { p.2.tx with receivers := p.2.tx.receivers + 1 } })
    else p) s

/-- Model of Rust `str::starts_with(prefix)`: prefix comparison of the
character lists. -/
def strStartsWith (s pre : String) : Bool :=
  List.isPrefixOf pre.data s.data

/-- Model of Rust `str::contains(pattern)`: some suffix of the string
starts with the pattern. -/
def containsSubstring (s pattern : String) : Bool :=
  s.data.tails.any (fun t => List.isPrefixOf pattern.data t)

namespace HttpTransport

/-- Shared application state (struct `AppState`).  The session map sits
behind a process-wide RwLock in the source; the lock discipline makes each
handler an atomic state transition, which is what the explicit state
passing below models. -/
structure AppState where
  manager : DockerManager
  sessions : SessionStore
  allowed_origins : Option (List String)

/-- Constructor `AppState::new`: empty session map, no allow-list. -/
def AppState.new (manager : DockerManager) : AppState :=
  { manager := manager, sessions := [], allowed_origins := none }

/-- Method `AppState::create_session`: the fresh id (a generated UUID,
supplied here by the caller as an oracle) and the creation instant are
inputs; a session with a bounded broadcast channel of capacity 100 is
inserted and the id returned. -/
def AppState.create_session (state : AppState) (freshId : String)
    (now : OffsetDateTime) : AppState × String :=
  let session : Session :=
    { id := freshId, created_at := now
      tx := { capacity := 100, receivers := 0 } }
  ({ state with sessions := storeInsert state.sessions freshId session }, freshId)

/-- Method `AppState::get_session`: the broadcast channel of the named
session, if any. -/
def AppState.get_session (state : AppState) (session_id : String) :
    Option BroadcastChannel :=
  Option.map Session.tx (storeGet? state.sessions session_id)

/-- Method `AppState::remove_session`: deletes the record if present and
reports whether it existed. -/
def AppState.remove_session (state : AppState) (session_id : String) :
    AppState × Bool :=
  let removed := storeContains state.sessions session_id
  ({ state with sessions := storeRemove state.sessions session_id }, removed)

/-- Method `AppState::session_exists`. -/
def AppState.session_exists (state : AppState) (session_id : String) : Bool :=
  storeContains state.sessions session_id

/-- The mcp-session-id header name constant
(`MCP_SESSION_ID_HEADER`). -/
def MCP_SESSION_ID_HEADER : String := "mcp-session-id"

/-- The Security Gate (`validate_origin`): absent origin is allowed; with a
configured allow-list the origin must equal an entry; otherwise the origin
must start with a localhost prefix. -/
def validate_origin (headers : Headers) (allowed_origins : Option (List String)) :
    Bool :=
  match getHeader headers "origin" with
  | none => true
  | some origin =>
      match allowed_origins with
      | some allowed => allowed.any (fun a => a == origin)
      | none =>
          strStartsWith origin "http://localhost" ||
          strStartsWith origin "http://127.0.0.1" ||
          strStartsWith origin "https://localhost" ||
          strStartsWith origin "https://127.0.0.1"

/-- Extraction of the session id header (`get_session_id`). -/
def get_session_id (headers : Headers) : Option String :=
  getHeader headers MCP_SESSION_ID_HEADER

/-- HTTP response body: plain text, a JSON value (kept structured), or an
SSE stream subscribed to the named session. -/
inductive HttpBody where
  | text (s : String)
  | json (j : Json)
  | sse (sessionId : String)

/-- HTTP response: status code, response headers, body. -/
structure HttpResponse where
  status : Nat
  headers : List (String × String)
  body : HttpBody

/-- A POST body after the `serde_json::from_str` stage: either malformed
(carrying the parse error message) or a parsed `JsonRpcRequest`. -/
inductive PostBody where
  | malformed (e : String)
  | parsed (request : JsonRpcRequest)

/-- The tools/call handler of the HTTP surface (`handle_tools_call` in
http_transport.rs).  Unlike the line-stream surface, an argument
deserialization failure returns early with JSON-RPC error -32602; the
early returns are modelled by the `Sum`, whose left injection carries the
finished response.  The Rust match on string literals is embedded as its
sequential equality chain. -/
def handle_tools_call (state : AppState) (id : Option Json) (params : Json) :
    JsonRpcResponse :=
  let tool_name := ((params.getField? "name").bind Json.asStr?).getD ""
  let arguments := (params.getField? "arguments").getD (.obj [])
  let step : Sum JsonRpcResponse (Except String String) :=
    if tool_name == "docker_run" then
      match DockerRunArgs.fromJson? arguments with
      | .error e =>
          .inl (JsonRpcResponse.mkError id (-32602) ("Invalid params: " ++ e))
      | .ok args => .inr (runDockerRun state.manager args)
    else if tool_name == "docker_logs" then
      match DockerLogsArgs.fromJson? arguments with
      | .error e =>
          .inl (JsonRpcResponse.mkError id (-32602) ("Invalid params: " ++ e))
      | .ok args => .inr (runDockerLogs state.manager args)
    else if tool_name == "docker_exec" then
      match DockerExecArgs.fromJson? arguments with
      | .error e =>
          .inl (JsonRpcResponse.mkError id (-32602) ("Invalid params: " ++ e))
      | .ok args => .inr (runDockerExec state.manager args)
    else if tool_name == "docker_stop" then
      match DockerStopArgs.fromJson? arguments with
      | .error e =>
          .inl (JsonRpcResponse.mkError id (-32602) ("Invalid params: " ++ e))
      | .ok args => .inr (runDockerStop state.manager args)
    else if tool_name == "docker_list" then .inr (runDockerList state.manager)
    else .inr (.error ("Unknown tool: " ++ tool_name))
  match step with
  | .inl response => response
  | .inr (.ok content) =>
      JsonRpcResponse.success id
        (.obj [("content", .arr [.obj [("type", .str "text"),
                                       ("text", .str content)]])])
  | .inr (.error e) =>
      JsonRpcResponse.success id
        (.obj [("content", .arr [.obj [("type", .str "text"),
                                       ("text", .str ("Error: " ++ e))]]),
               ("isError", .bool true)])

/-- The HTTP surface dispatcher (`handle_json_rpc_request`): routes by
method name, reusing the mcp_server handlers for initialize and
tools/list. -/
def handle_json_rpc_request (state : AppState) (request : JsonRpcRequest) :
    JsonRpcResponse :=
  match request.method with
  | "initialize" => McpServer.handle_initialize request.id
  | "tools/list" => McpServer.handle_tools_list request.id
  | "tools/call" => handle_tools_call state request.id request.params
  | "ping" => JsonRpcResponse.success request.id (.obj [])
  | _ => JsonRpcResponse.mkError request.id (-32601) "Method not found"

/-- The POST handler (`handle_post`): origin gate, parse stage, the
initialize special case creating a session and echoing its id in the
mcp-session-id response header, and plain dispatch for every other
method (a stale or missing session id is only logged).  The fresh session
id and the current instant are oracle inputs. -/
def handle_post (state : AppState) (freshId : String) (now : OffsetDateTime)
    (headers : Headers) (body : PostBody) : HttpResponse × AppState :=
  if !(validate_origin headers state.allowed_origins) then
    ({ status := 403, headers := [], body := .text "Invalid origin" }, state)
  else
    match body with
    | .malformed e =>
        ({ status := 400
           headers := [("content-type", "application/json")]
           body := .json (JsonRpcResponse.toJson
             (JsonRpcResponse.mkError none (-32700) ("Parse error: " ++ e))) },
         state)
    | .parsed request =>
        if request.method == "initialize" then
          let (state', session_id) := state.create_session freshId now
          let response := McpServer.handle_initialize request.id
          ({ status := 200
             headers := [("content-type", "application/json"),
                         (MCP_SESSION_ID_HEADER, session_id)]
             body := .json response.toJson }, state')
        else
          let response := handle_json_rpc_request state request
          ({ status := 200
             headers := [("content-type", "application/json")]
             body := .json response.toJson }, state)

/-- The GET handler (`handle_get`): origin gate, Accept check, session id
header, session lookup, then subscription to the session channel and a
long-lived SSE response. -/
def handle_get (state : AppState) (headers : Headers) :
    HttpResponse × AppState :=
  if !(validate_origin headers state.allowed_origins) then
    ({ status := 403, headers := [], body := .text "Invalid origin" }, state)
  else
    let accept := (getHeader headers "accept").getD ""
    if !(containsSubstring accept "text/event-stream") then
      ({ status := 406, headers := []
         body := .text "Must accept text/event-stream" }, state)
    else
      match get_session_id headers with
      | none =>
          ({ status := 400, headers := []
             body := .text "Missing Mcp-Session-Id header" }, state)
      | some session_id =>
          match state.get_session session_id with
          | none =>
              ({ status := 404, headers := []
                 body := .text "Session not found" }, state)
          | some _ =>
              ({ status := 200, headers := []
                 body := .sse session_id },
               { state with sessions := storeSubscribe state.sessions session_id })

/-- The DELETE handler (`handle_delete`): origin gate, session id header,
removal with 200 on success and 404 when the session is unknown. -/
def handle_delete (state : AppState) (headers : Headers) :
    HttpResponse × AppState :=
  if !(validate_origin headers state.allowed_origins) then
    ({ status := 403, headers := [], body := .text "Invalid origin" }, state)
  else
    match get_session_id headers with
    | none =>
        ({ status := 400, headers := []
           body := .text "Missing Mcp-Session-Id header" }, state)
    | some session_id =>
        let (state', removed) := state.remove_session session_id
        if removed then
          ({ status := 200, headers := [], body := .text "Session terminated" },
           state')
        else
          ({ status := 404, headers := [], body := .text "Session not found" },
           state')

end HttpTransport

/-!
Definitions supporting the claim statements.
-/

/-- A concrete Operation Executor oracle used by closed instances: every
operation reports the docker daemon unavailable.  The theorems about
requests that must not reach the executor conclude with responses in which
no oracle occurs, so the choice made here is immaterial. -/
def trivialManager : DockerManager :=
  { start_container := fun _ => .error "docker unavailable"
    get_logs := fun _ => .error "docker unavailable"
    exec_command := fun _ _ => .error "docker unavailable"
    stop_container := fun _ => .error "docker unavailable"
    list_containers := [] }

/-- The argument deserialization outcome for a named tool: the serde error
message when the named tool's argument schema rejects the arguments value,
`none` when the arguments decode, or when the name is docker_list (which
takes no arguments) or not a registered tool at all. -/
def toolArgsDecodeError (tool_name : String) (arguments : Json) : Option String :=
  if tool_name == "docker_run" then
    match DockerRunArgs.fromJson? arguments with
    | .error e => some e
    | .ok _ => none
  else if tool_name == "docker_logs" then
    match DockerLogsArgs.fromJson? arguments with
    | .error e => some e
    | .ok _ => none
  else if tool_name == "docker_exec" then
    match DockerExecArgs.fromJson? arguments with
    | .error e => some e
    | .ok _ => none
  else if tool_name == "docker_stop" then
    match DockerStopArgs.fromJson? arguments with
    | .error e => some e
    | .ok _ => none
  else none

/-- Stated from the spec wording of the Security Gate default rule, for
comparison with `validate_origin`: the scheme+host of the origin is
http(s)://localhost or http(s)://127.0.0.1, regardless of port (the origin
is exactly a listed scheme+host, or a listed scheme+host followed by a
colon and a port). -/
def specLocalhostOrigin (origin : String) : Bool :=
  ["http://localhost", "https://localhost",
   "http://127.0.0.1", "https://127.0.0.1"].any
    (fun p => origin == p || strStartsWith origin (p ++ ":"))

/-!
Claim theorems.
-/

/-- C3, counterexample: with no allow-list configured, `validate_origin`
allows the origin http://localhost.evil.com although its scheme+host is
neither localhost nor 127.0.0.1 — the code performs a string-prefix check,
not a scheme+host check, refuting the claimed characterization. -/
theorem C3_counterexample_prefix_not_host :
    HttpTransport.validate_origin
      [("origin", "http://localhost.evil.com")] none = true ∧
    specLocalhostOrigin "http://localhost.evil.com" = false :=
  ⟨rfl, rfl⟩

/-- C3 (amended): `validate_origin` is a pure function of the origin header
and the configured allow-list.  An absent origin is allowed; with an
allow-list configured it allows exactly the origins equal to some entry;
with no allow-list it allows exactly the origins that start with one of the
four literal prefixes http://localhost, http://127.0.0.1, https://localhost,
https://127.0.0.1 — a prefix check on the whole origin string, port-agnostic
but also admitting hosts that merely extend one of these prefixes. -/
theorem C3_validate_origin_characterization
    (headers : Headers) (ao : Option (List String)) :
    (getHeader headers "origin" = none →
      HttpTransport.validate_origin headers ao = true) ∧
    (∀ origin allowed, getHeader headers "origin" = some origin →
      ao = some allowed →
      (HttpTransport.validate_origin headers ao = true ↔ origin ∈ allowed)) ∧
    (∀ origin, getHeader headers "origin" = some origin → ao = none →
      (HttpTransport.validate_origin headers ao = true ↔
        (strStartsWith origin "http://localhost" = true ∨
         strStartsWith origin "http://127.0.0.1" = true ∨
         strStartsWith origin "https://localhost" = true ∨
         strStartsWith origin "https://127.0.0.1" = true))) := by
  refine ⟨?_, ?_, ?_⟩
  · intro h
    unfold HttpTransport.validate_origin
    rw [h]
  · intro origin allowed h1 h2
    subst h2
    unfold HttpTransport.validate_origin
    rw [h1]
    simp only [List.any_eq_true, beq_iff_eq]
    constructor
    · rintro ⟨a, ha, rfl⟩
      exact ha
    · intro hmem
      exact ⟨origin, hmem, rfl⟩
  · intro origin h1 h2
    subst h2
    unfold HttpTransport.validate_origin
    rw [h1]
    simp [Bool.or_eq_true, or_assoc]

/-- Witness for C3: the amended characterization applied to a concrete
localhost origin with a port, with no allow-list. -/
theorem C3_validate_origin_characterization_witness :
    HttpTransport.validate_origin [("origin", "http://localhost:3000")] none
      = true :=
  ((C3_validate_origin_characterization
      [("origin", "http://localhost:3000")] none).2.2
    "http://localhost:3000" rfl rfl).mpr (Or.inl (by decide))

/-- C1, counterexample: for the tools/call request naming docker_exec whose
arguments lack the required command field, the line-stream dispatcher
answers with a success envelope flagged isError (the JSON-RPC error member
is absent), not with a -32602 invalid-params error response as the claim
states for both surfaces. -/
theorem C1_counterexample_line_stream_not_32602 :
    (McpServer.handle_request trivialManager
      { jsonrpc := "2.0", id := some (.num 5), method := "tools/call"
        params := .obj [("name", .str "docker_exec"),
                        ("arguments", .obj [("container_id", .str "c1")])] }).error
      = none ∧
    ((McpServer.handle_request trivialManager
      { jsonrpc := "2.0", id := some (.num 5), method := "tools/call"
        params := .obj [("name", .str "docker_exec"),
                        ("arguments", .obj [("container_id", .str "c1")])] }).result.bind
      (fun r => r.getField? "isError")) = some (.bool true) :=
  ⟨rfl, rfl⟩

/-- C1 (amended): when the arguments of a tools/call request fail the named
tool's argument schema, the HTTP dispatcher returns the JSON-RPC error
-32602 (invalid params) without invoking the Operation Executor; the
line-stream dispatcher also never invokes the Operation Executor on such a
request, but reports the failure as a tool-level error — a success envelope
flagged isError — rather than a -32602 error.  Both conclusions are
equalities with executor-free responses, which is the non-invocation. -/
theorem C1_invalid_params_surface_behaviour
    (m : DockerManager) (sessions : SessionStore) (ao : Option (List String))
    (id : Option Json) (params : Json) (e : String)
    (h : toolArgsDecodeError
           (((params.getField? "name").bind Json.asStr?).getD "")
           ((params.getField? "arguments").getD (.obj [])) = some e) :
    HttpTransport.handle_tools_call ⟨m, sessions, ao⟩ id params =
      JsonRpcResponse.mkError id (-32602) ("Invalid params: " ++ e) ∧
    McpServer.handle_tools_call m id params =
      JsonRpcResponse.success id
        (.obj [("content", .arr [.obj [("type", .str "text"),
                                       ("text", .str ("Error: " ++ e))]]),
               ("isError", .bool true)]) := by
  simp only [HttpTransport.handle_tools_call, McpServer.handle_tools_call]
  generalize hA : ((params.getField? "name").bind Json.asStr?).getD "" = tn at h ⊢
  generalize hB : (params.getField? "arguments").getD (Json.obj []) = args at h ⊢
  unfold toolArgsDecodeError at h
  by_cases h1 : tn = "docker_run"
  · subst h1
    simp only [beq_self_eq_true, if_pos] at h ⊢
    split at h
    · rename_i e' hd
      obtain rfl : e' = e := by injection h
      simp [hd, McpServer.handle_docker_run]
    · simp at h
  · simp only [beq_iff_eq, h1, if_neg, ite_false] at h ⊢
    by_cases h2 : tn = "docker_logs"
    · subst h2
      simp only [beq_self_eq_true, if_pos] at h ⊢
      split at h
      · rename_i e' hd
        obtain rfl : e' = e := by injection h
        simp [hd, McpServer.handle_docker_logs]
      · simp at h
    · simp only [beq_iff_eq, h2, if_neg, ite_false] at h ⊢
      by_cases h3 : tn = "docker_exec"
      · subst h3
        simp only [beq_self_eq_true, if_pos] at h ⊢
        split at h
        · rename_i e' hd
          obtain rfl : e' = e := by injection h
          simp [hd, McpServer.handle_docker_exec]
        · simp at h
      · simp only [beq_iff_eq, h3, if_neg, ite_false] at h ⊢
        by_cases h4 : tn = "docker_stop"
        · subst h4
          simp only [beq_self_eq_true, if_pos] at h ⊢
          split at h
          · rename_i e' hd
            obtain rfl : e' = e := by injection h
            simp [hd, McpServer.handle_docker_stop]
          · simp at h
        · simp only [beq_iff_eq, h4, if_neg, ite_false] at h
          exact absurd h (by simp)

/-- Witness for C1: the amended theorem applied to the concrete docker_exec
request whose arguments lack the command field. -/
theorem C1_invalid_params_surface_behaviour_witness :
    HttpTransport.handle_tools_call
        ⟨trivialManager, [], none⟩ (some (.num 5))
        (.obj [("name", .str "docker_exec"),
               ("arguments", .obj [("container_id", .str "c1")])]) =
      JsonRpcResponse.mkError (some (.num 5)) (-32602)
        ("Invalid params: " ++ "missing field command") ∧
    McpServer.handle_tools_call trivialManager (some (.num 5))
        (.obj [("name", .str "docker_exec"),
               ("arguments", .obj [("container_id", .str "c1")])]) =
      JsonRpcResponse.success (some (.num 5))
        (.obj [("content", .arr [.obj [("type", .str "text"),
                 ("text", .str ("Error: " ++ "missing field command"))]]),
               ("isError", .bool true)]) :=
  C1_invalid_params_surface_behaviour trivialManager [] none (some (.num 5))
    (.obj [("name", .str "docker_exec"),
           ("arguments", .obj [("container_id", .str "c1")])])
    "missing field command" rfl

/-- C2, counterexample: the two dispatchers differ on the tools/call
request naming docker_exec whose arguments lack the command field — the
HTTP surface answers with a -32602 error response, the line-stream surface
with a success envelope, so the response bodies are not equal. -/
theorem C2_counterexample_surfaces_differ :
    HttpTransport.handle_json_rpc_request
        (HttpTransport.AppState.new trivialManager)
        { jsonrpc := "2.0", id := some (.num 7), method := "tools/call"
          params := .obj [("name", .str "docker_exec"),
                          ("arguments", .obj [("container_id", .str "c1")])] } ≠
      McpServer.handle_request trivialManager
        { jsonrpc := "2.0", id := some (.num 7), method := "tools/call"
          params := .obj [("name", .str "docker_exec"),
                          ("arguments", .obj [("container_id", .str "c1")])] } := by
  intro hcontra
  have h1 : (HttpTransport.handle_json_rpc_request
      (HttpTransport.AppState.new trivialManager)
      { jsonrpc := "2.0", id := some (.num 7), method := "tools/call"
        params := .obj [("name", .str "docker_exec"),
                        ("arguments", .obj [("container_id", .str "c1")])] }).error.isSome
      = true := rfl
  rw [hcontra] at h1
  exact Bool.noConfusion (show false = true from h1)

/-- C2 (amended): the line-stream dispatcher and the HTTP dispatcher
produce the same JSON-RPC response body for every request except a
tools/call whose named tool's arguments fail its schema (where the HTTP
surface answers -32602 and the line-stream surface a tool-level isError
envelope); the HTTP-only session side effect of initialize lives in the
POST handler, outside both dispatchers. -/
theorem C2_dispatchers_agree_away_from_invalid_params
    (state : HttpTransport.AppState) (request : JsonRpcRequest)
    (h : request.method = "tools/call" →
      toolArgsDecodeError
        (((request.params.getField? "name").bind Json.asStr?).getD "")
        ((request.params.getField? "arguments").getD (.obj [])) = none) :
    HttpTransport.handle_json_rpc_request state request =
      McpServer.handle_request state.manager request := by
  unfold HttpTransport.handle_json_rpc_request McpServer.handle_request
  split
  · rfl
  · rfl
  · rename_i heq
    have h' := h heq
    unfold HttpTransport.handle_tools_call McpServer.handle_tools_call
    generalize hA : ((request.params.getField? "name").bind Json.asStr?).getD ""
      = tn at h' ⊢
    generalize hB : (request.params.getField? "arguments").getD (Json.obj [])
      = args at h' ⊢
    unfold toolArgsDecodeError at h'
    by_cases h1 : tn = "docker_run"
    · subst h1
      simp only [beq_self_eq_true, if_pos] at h' ⊢
      split at h'
      · simp at h'
      · rename_i a hd
        simp only [hd, McpServer.handle_docker_run]
        cases runDockerRun state.manager a <;> rfl
    · simp only [beq_iff_eq, h1, if_neg, ite_false] at h' ⊢
      by_cases h2 : tn = "docker_logs"
      · subst h2
        simp only [beq_self_eq_true, if_pos] at h' ⊢
        split at h'
        · simp at h'
        · rename_i a hd
          simp only [hd, McpServer.handle_docker_logs]
          cases runDockerLogs state.manager a <;> rfl
      · simp only [beq_iff_eq, h2, if_neg, ite_false] at h' ⊢
        by_cases h3 : tn = "docker_exec"
        · subst h3
          simp only [beq_self_eq_true, if_pos] at h' ⊢
          split at h'
          · simp at h'
          · rename_i a hd
            simp only [hd, McpServer.handle_docker_exec]
            cases runDockerExec state.manager a <;> rfl
        · simp only [beq_iff_eq, h3, if_neg, ite_false] at h' ⊢
          by_cases h4 : tn = "docker_stop"
          · subst h4
            simp only [beq_self_eq_true, if_pos] at h' ⊢
            split at h'
            · simp at h'
            · rename_i a hd
              simp only [hd, McpServer.handle_docker_stop]
              cases runDockerStop state.manager a <;> rfl
          · simp only [beq_iff_eq, h4, if_neg, ite_false] at h' ⊢
            by_cases h5 : tn = "docker_list"
            · subst h5
              simp only [beq_self_eq_true, if_pos]
              rfl
            · simp only [beq_iff_eq, h5, if_neg, ite_false]
  · rfl
  · rfl

/-- Witness for C2: the amended agreement applied to a concrete ping
request (the premise is vacuous since the method is not tools/call). -/
theorem C2_dispatchers_agree_away_from_invalid_params_witness :
    HttpTransport.handle_json_rpc_request
        (HttpTransport.AppState.new trivialManager)
        { jsonrpc := "2.0", id := some (.num 2), method := "ping"
          params := .null } =
      McpServer.handle_request trivialManager
        { jsonrpc := "2.0", id := some (.num 2), method := "ping"
          params := .null } :=
  C2_dispatchers_agree_away_from_invalid_params
    (HttpTransport.AppState.new trivialManager)
    { jsonrpc := "2.0", id := some (.num 2), method := "ping", params := .null }
    (fun hmethod => absurd hmethod (by decide))

/-- C4: every HTTP request whose Origin header fails the Security Gate is
answered with status 403 and the constant forbidden response, the Session
Store is returned unchanged (no creation, removal or subscription, even
for an initialize body), and nothing is dispatched: the POST response is
the same constant for every body, and the GET and DELETE responses likewise
depend on nothing else. -/
theorem C4_forbidden_origin_frame
    (state : HttpTransport.AppState) (headers : Headers)
    (h : HttpTransport.validate_origin headers state.allowed_origins = false) :
    (∀ freshId now body,
      HttpTransport.handle_post state freshId now headers body =
        ({ status := 403, headers := [], body := .text "Invalid origin" }, state)) ∧
    HttpTransport.handle_get state headers =
      ({ status := 403, headers := [], body := .text "Invalid origin" }, state) ∧
    HttpTransport.handle_delete state headers =
      ({ status := 403, headers := [], body := .text "Invalid origin" }, state) := by
  refine ⟨fun freshId now body => ?_, ?_, ?_⟩ <;>
    simp [HttpTransport.handle_post, HttpTransport.handle_get,
      HttpTransport.handle_delete, h]

/-- Witness for C4: the frame condition applied to the evil-origin request
of the spec scenario, with an initialize POST body. -/
theorem C4_forbidden_origin_frame_witness :
    HttpTransport.handle_post (HttpTransport.AppState.new trivialManager)
        "s1" "t0" [("origin", "https://evil.example")]
        (.parsed { jsonrpc := "2.0", id := some (.num 1)
                   method := "initialize", params := .obj [] }) =
      ({ status := 403, headers := [], body := .text "Invalid origin" },
       HttpTransport.AppState.new trivialManager) ∧
    HttpTransport.handle_get (HttpTransport.AppState.new trivialManager)
        [("origin", "https://evil.example")] =
      ({ status := 403, headers := [], body := .text "Invalid origin" },
       HttpTransport.AppState.new trivialManager) ∧
    HttpTransport.handle_delete (HttpTransport.AppState.new trivialManager)
        [("origin", "https://evil.example")] =
      ({ status := 403, headers := [], body := .text "Invalid origin" },
       HttpTransport.AppState.new trivialManager) :=
  let h := C4_forbidden_origin_frame (HttpTransport.AppState.new trivialManager)
    [("origin", "https://evil.example")] rfl
  ⟨h.1 "s1" "t0" (.parsed { jsonrpc := "2.0", id := some (.num 1)
                            method := "initialize", params := .obj [] }),
   h.2.1, h.2.2⟩

/-- C5: an initialize POST that passes the Security Gate and parses creates
a fresh session: a record with a bounded broadcast channel (capacity 100,
no receivers yet) is inserted under the fresh id, the response is 200 and
carries the id in the mcp-session-id response header, session_exists holds
on the new state, and the JSON-RPC body is the initialize response, whose
id equals the request id and whose result contains protocolVersion. -/
theorem C5_initialize_creates_session
    (state : HttpTransport.AppState) (freshId : String) (now : OffsetDateTime)
    (headers : Headers) (request : JsonRpcRequest)
    (hok : HttpTransport.validate_origin headers state.allowed_origins = true)
    (hinit : request.method = "initialize") :
    (HttpTransport.handle_post state freshId now headers (.parsed request)).1.status
      = 200 ∧
    getHeader (HttpTransport.handle_post state freshId now headers
        (.parsed request)).1.headers HttpTransport.MCP_SESSION_ID_HEADER
      = some freshId ∧
    (HttpTransport.handle_post state freshId now headers
        (.parsed request)).2.session_exists freshId = true ∧
    storeGet? (HttpTransport.handle_post state freshId now headers
        (.parsed request)).2.sessions freshId =
      some { id := freshId, created_at := now
             tx := { capacity := 100, receivers := 0 } } ∧
    (HttpTransport.handle_post state freshId now headers (.parsed request)).1.body
      = .json (JsonRpcResponse.toJson (McpServer.handle_initialize request.id)) ∧
    (McpServer.handle_initialize request.id).id = request.id ∧
    ((McpServer.handle_initialize request.id).result.bind
      (fun r => r.getField? "protocolVersion")) = some (.str "2024-11-05") := by
  have hpost : HttpTransport.handle_post state freshId now headers
      (.parsed request) =
      ({ status := 200
         headers := [("content-type", "application/json"),
                     (HttpTransport.MCP_SESSION_ID_HEADER, freshId)]
         body := .json (JsonRpcResponse.toJson
           (McpServer.handle_initialize request.id)) },
       { state with
           sessions := storeInsert state.sessions freshId
             ({ id := freshId, created_at := now
                tx := { capacity := 100, receivers := 0 } }) }) := by
    simp [HttpTransport.handle_post, hok, hinit,
      HttpTransport.AppState.create_session]
  rw [hpost]
  refine ⟨rfl, rfl, ?_, ?_, rfl, rfl, rfl⟩
  · simp [HttpTransport.AppState.session_exists, storeContains, storeInsert]
  · simp [storeGet?, storeInsert]

/-- Witness for C5: the session-creation contract applied to scenario A,
an initialize POST with no Origin header on a fresh state. -/
theorem C5_initialize_creates_session_witness :
    (HttpTransport.handle_post (HttpTransport.AppState.new trivialManager)
        "s1" "t0" []
        (.parsed { jsonrpc := "2.0", id := some (.num 1)
                   method := "initialize", params := .obj [] })).1.status = 200 ∧
    getHeader (HttpTransport.handle_post (HttpTransport.AppState.new trivialManager)
        "s1" "t0" []
        (.parsed { jsonrpc := "2.0", id := some (.num 1)
                   method := "initialize", params := .obj [] })).1.headers
        HttpTransport.MCP_SESSION_ID_HEADER = some "s1" ∧
    (HttpTransport.handle_post (HttpTransport.AppState.new trivialManager)
        "s1" "t0" []
        (.parsed { jsonrpc := "2.0", id := some (.num 1)
                   method := "initialize", params := .obj [] })).2.session_exists
        "s1" = true :=
  let h := C5_initialize_creates_session (HttpTransport.AppState.new trivialManager)
    "s1" "t0" []
    { jsonrpc := "2.0", id := some (.num 1), method := "initialize"
      params := .obj [] } rfl rfl
  ⟨h.1, h.2.1, h.2.2.1⟩

/-- Removing a key from the store leaves no binding for it. -/
theorem storeContains_storeRemove (s : SessionStore) (k : String) :
    storeContains (storeRemove s k) k = false := by
  induction s with
  | nil => rfl
  | cons p rest ih =>
      by_cases hpk : p.1 == k
      · simp [storeContains, storeRemove, List.filter_cons, hpk]
      · simp [storeContains, storeRemove, List.filter_cons, hpk]

/-- Lookup of a removed key yields nothing. -/
theorem storeGet?_storeRemove (s : SessionStore) (k : String) :
    storeGet? (storeRemove s k) k = none := by
  induction s with
  | nil => rfl
  | cons p rest ih =>
      by_cases hpk : p.1 == k
      · simp [storeGet?, storeRemove, List.filter_cons, hpk]
      · simp [storeGet?, storeRemove, List.filter_cons, List.find?, hpk]

/-- C6: remove_session deletes the record if present and returns true
exactly when the id was bound; after a removal the session no longer
exists and a second removal reports false; the DELETE handler (past the
gate, with the id header present) answers 200 exactly when removal
succeeded and 404 otherwise, leaving the store without the id either way;
and a subsequent well-formed SSE GET naming the removed id receives
404. -/
theorem C6_remove_session_and_delete
    (state : HttpTransport.AppState) (sid : String) (headers : Headers)
    (hok : HttpTransport.validate_origin headers state.allowed_origins = true)
    (hsid : HttpTransport.get_session_id headers = some sid)
    (haccept : containsSubstring ((getHeader headers "accept").getD "")
        "text/event-stream" = true) :
    ((state.remove_session sid).2 = state.session_exists sid) ∧
    ((state.remove_session sid).1.session_exists sid = false) ∧
    (((state.remove_session sid).1.remove_session sid).2 = false) ∧
    (state.session_exists sid = true →
      HttpTransport.handle_delete state headers =
        ({ status := 200, headers := [], body := .text "Session terminated" },
         (state.remove_session sid).1)) ∧
    (state.session_exists sid = false →
      HttpTransport.handle_delete state headers =
        ({ status := 404, headers := [], body := .text "Session not found" },
         (state.remove_session sid).1)) ∧
    ((HttpTransport.handle_get (HttpTransport.handle_delete state headers).2
        headers).1.status = 404) := by
  have hdel2 : (HttpTransport.handle_delete state headers).2 =
      (state.remove_session sid).1 := by
    simp [HttpTransport.handle_delete, hok, hsid,
      HttpTransport.AppState.remove_session, apply_ite Prod.snd]
  refine ⟨rfl, ?_, ?_, ?_, ?_, ?_⟩
  · exact storeContains_storeRemove state.sessions sid
  · exact storeContains_storeRemove state.sessions sid
  · intro hex
    simp [HttpTransport.handle_delete, hok, hsid,
      HttpTransport.AppState.remove_session] at hex ⊢
    simp [HttpTransport.AppState.session_exists] at hex
    simp [hex]
  · intro hex
    simp [HttpTransport.AppState.session_exists] at hex
    simp [HttpTransport.handle_delete, hok, hsid,
      HttpTransport.AppState.remove_session, hex]
  · rw [hdel2]
    simp [HttpTransport.handle_get, HttpTransport.AppState.remove_session,
      hok, hsid, haccept, HttpTransport.AppState.get_session,
      storeGet?_storeRemove]

/-- Witness for C6: scenario C on a concrete store holding one session s1 —
removal reports true, DELETE answers 200 terminated, and the following GET
with the same header answers 404. -/
theorem C6_remove_session_and_delete_witness :
    (HttpTransport.AppState.remove_session
      { manager := trivialManager
        sessions := [("s1", { id := "s1", created_at := "t0"
                              tx := { capacity := 100, receivers := 0 } })]
        allowed_origins := none } "s1").2 = true ∧
    (HttpTransport.handle_delete
      { manager := trivialManager
        sessions := [("s1", { id := "s1", created_at := "t0"
                              tx := { capacity := 100, receivers := 0 } })]
        allowed_origins := none }
      [("mcp-session-id", "s1"), ("accept", "text/event-stream")]).1.status
      = 200 ∧
    (HttpTransport.handle_get
      (HttpTransport.handle_delete
        { manager := trivialManager
          sessions := [("s1", { id := "s1", created_at := "t0"
                                tx := { capacity := 100, receivers := 0 } })]
          allowed_origins := none }
        [("mcp-session-id", "s1"), ("accept", "text/event-stream")]).2
      [("mcp-session-id", "s1"), ("accept", "text/event-stream")]).1.status
      = 404 := by
  have h := C6_remove_session_and_delete
    { manager := trivialManager
      sessions := [("s1", { id := "s1", created_at := "t0"
                            tx := { capacity := 100, receivers := 0 } })]
      allowed_origins := none }
    "s1" [("mcp-session-id", "s1"), ("accept", "text/event-stream")]
    rfl rfl (by decide)
  refine ⟨h.1.trans rfl, ?_, h.2.2.2.2.2⟩
  rw [h.2.2.2.1 rfl]

/-- C7: a tools/call naming a tool outside the registered five is answered,
on both surfaces, with a JSON-RPC success envelope (no error member) whose
payload carries isError: true and the human-readable message naming the
unknown tool. -/
theorem C7_unknown_tool_isError
    (state : HttpTransport.AppState) (m : DockerManager) (id : Option Json)
    (params : Json)
    (h : (["docker_run", "docker_logs", "docker_exec", "docker_stop",
           "docker_list"].contains
            (((params.getField? "name").bind Json.asStr?).getD "")) = false) :
    McpServer.handle_tools_call m id params =
      JsonRpcResponse.success id
        (.obj [("content", .arr [.obj [("type", .str "text"),
           ("text", .str ("Error: " ++ ("Unknown tool: " ++
             (((params.getField? "name").bind Json.asStr?).getD ""))))]]),
         ("isError", .bool true)]) ∧
    HttpTransport.handle_tools_call state id params =
      JsonRpcResponse.success id
        (.obj [("content", .arr [.obj [("type", .str "text"),
           ("text", .str ("Error: " ++ ("Unknown tool: " ++
             (((params.getField? "name").bind Json.asStr?).getD ""))))]]),
         ("isError", .bool true)]) := by
  simp at h
  obtain ⟨h1, h2, h3, h4, h5⟩ := h
  unfold McpServer.handle_tools_call HttpTransport.handle_tools_call
  constructor <;>
    simp only [beq_iff_eq, h1, h2, h3, h4, h5, if_neg, ite_false]

/-- Witness for C7: scenario D, a tools/call naming bogus_tool. -/
theorem C7_unknown_tool_isError_witness :
    McpServer.handle_tools_call trivialManager (some (.num 5))
        (.obj [("name", .str "bogus_tool"), ("arguments", .obj [])]) =
      JsonRpcResponse.success (some (.num 5))
        (.obj [("content", .arr [.obj [("type", .str "text"),
           ("text", .str ("Error: " ++ ("Unknown tool: " ++
             ((((Json.obj [("name", .str "bogus_tool"),
                 ("arguments", .obj [])]).getField? "name").bind
                Json.asStr?).getD ""))))]]),
         ("isError", .bool true)]) :=
  (C7_unknown_tool_isError (HttpTransport.AppState.new trivialManager)
    trivialManager (some (.num 5))
    (.obj [("name", .str "bogus_tool"), ("arguments", .obj [])])
    (by decide)).1

/-- C8: serializing a response built by the success or the error
constructor and re-parsing it yields a value with exactly one of the
result and error members present and never both, the absent member omitted
from the serialized object rather than emitted as null: a success response
binds the result key and carries no error key at all, and symmetrically for
an error response.  The typed re-parse, under serde's null-to-None rule for
optional fields, always succeeds with the error member still absent for a
success response (and the result member intact whenever the result value is
not itself JSON null), and with exactly the error member set for an error
response — so no re-parse ever sets both. -/
theorem C8_response_serialization_roundtrip
    (id : Option Json) (r : Json) (code : Int) (msg : String) :
    ((JsonRpcResponse.success id r).toJson.getField? "result" = some r ∧
     (JsonRpcResponse.success id r).toJson.getField? "error" = none ∧
     (JsonRpcResponse.fromJson?
         (JsonRpcResponse.success id r).toJson).map
       (fun resp => resp.error) = some none ∧
     (r ≠ .null →
       (JsonRpcResponse.fromJson?
           (JsonRpcResponse.success id r).toJson).map
         (fun resp => resp.result) = some (some r))) ∧
    ((JsonRpcResponse.mkError id code msg).toJson.getField? "result" = none ∧
     (JsonRpcResponse.mkError id code msg).toJson.getField? "error" =
       some (JsonRpcError.toJson
         { code := code, message := msg, data := none }) ∧
     (JsonRpcResponse.fromJson?
         (JsonRpcResponse.mkError id code msg).toJson).map
       (fun resp => (resp.result, resp.error)) =
       some (none, some { code := code, message := msg, data := none })) := by
  cases id <;>
    refine ⟨⟨rfl, rfl, rfl, fun hr => ?_⟩, rfl, rfl, rfl⟩ <;>
    cases r <;> first | exact absurd rfl hr | rfl

/-- Witness for C8: the roundtrip applied at a concrete id and a concrete
non-null result value, discharging the non-null hypothesis. -/
theorem C8_response_serialization_roundtrip_witness :
    (JsonRpcResponse.fromJson?
        (JsonRpcResponse.success (some (.num 1)) (.obj [])).toJson).map
      (fun resp => resp.result) = some (some (.obj [])) :=
  (C8_response_serialization_roundtrip (some (.num 1)) (.obj []) 0 "").1.2.2.2
    (fun h => Json.noConfusion h)

/-- The serialized id member of a response equals its id field, absence
included. -/
theorem JsonRpcResponse.toJson_id (r : JsonRpcResponse) :
    r.toJson.getField? "id" = r.id := by
  rcases r with ⟨j, id, res, err⟩
  cases id <;> cases res <;> cases err <;> rfl

/-- The line-stream tools/call handler echoes the request id. -/
theorem mcp_tools_call_id_echo (m : DockerManager) (id : Option Json)
    (params : Json) : (McpServer.handle_tools_call m id params).id = id := by
  unfold McpServer.handle_tools_call
  dsimp only
  split <;> rfl

/-- The HTTP tools/call handler echoes the request id. -/
theorem http_tools_call_id_echo (state : HttpTransport.AppState)
    (id : Option Json) (params : Json) :
    (HttpTransport.handle_tools_call state id params).id = id := by
  unfold HttpTransport.handle_tools_call
  dsimp only
  split_ifs
  · cases DockerRunArgs.fromJson?
        ((params.getField? "arguments").getD (Json.obj [])) with
    | error e => rfl
    | ok a =>
        dsimp only
        cases runDockerRun state.manager a <;> rfl
  · cases DockerLogsArgs.fromJson?
        ((params.getField? "arguments").getD (Json.obj [])) with
    | error e => rfl
    | ok a =>
        dsimp only
        cases runDockerLogs state.manager a <;> rfl
  · cases DockerExecArgs.fromJson?
        ((params.getField? "arguments").getD (Json.obj [])) with
    | error e => rfl
    | ok a =>
        dsimp only
        cases runDockerExec state.manager a <;> rfl
  · cases DockerStopArgs.fromJson?
        ((params.getField? "arguments").getD (Json.obj [])) with
    | error e => rfl
    | ok a =>
        dsimp only
        cases runDockerStop state.manager a <;> rfl
  · rfl
  · rfl

/-- C9: for every parsed request, on both surfaces and for every method
(the four known ones and the method-not-found path alike), the response id
field equals the request id, and the serialized response carries an id
member equal to the request id — absent exactly when the request id was
absent. -/
theorem C9_id_echo (state : HttpTransport.AppState) (m : DockerManager)
    (request : JsonRpcRequest) :
    (McpServer.handle_request m request).id = request.id ∧
    (McpServer.handle_request m request).toJson.getField? "id" = request.id ∧
    (HttpTransport.handle_json_rpc_request state request).id = request.id ∧
    (HttpTransport.handle_json_rpc_request state request).toJson.getField? "id"
      = request.id := by
  have hm : (McpServer.handle_request m request).id = request.id := by
    unfold McpServer.handle_request
    split
    · rfl
    · rfl
    · exact mcp_tools_call_id_echo m request.id request.params
    · rfl
    · rfl
  have hh : (HttpTransport.handle_json_rpc_request state request).id
      = request.id := by
    unfold HttpTransport.handle_json_rpc_request
    split
    · rfl
    · rfl
    · exact http_tools_call_id_echo state request.id request.params
    · rfl
    · rfl
  exact ⟨hm, (JsonRpcResponse.toJson_id _).trans hm,
         hh, (JsonRpcResponse.toJson_id _).trans hh⟩

/-- C10: when the params of a tools/call lack a name field, or its name
member is not a JSON string, both surfaces treat the tool name as the
empty string and answer with the unknown-tool success envelope flagged
isError (no -32602 error, and no Operation Executor involvement: the
responses below mention no executor). -/
theorem C10_missing_name_is_unknown_tool
    (state : HttpTransport.AppState) (m : DockerManager) (id : Option Json)
    (params : Json)
    (h : (params.getField? "name").bind Json.asStr? = none) :
    McpServer.handle_tools_call m id params =
      JsonRpcResponse.success id
        (.obj [("content", .arr [.obj [("type", .str "text"),
           ("text", .str ("Error: " ++ ("Unknown tool: " ++ "")))]]),
         ("isError", .bool true)]) ∧
    HttpTransport.handle_tools_call state id params =
      JsonRpcResponse.success id
        (.obj [("content", .arr [.obj [("type", .str "text"),
           ("text", .str ("Error: " ++ ("Unknown tool: " ++ "")))]]),
         ("isError", .bool true)]) := by
  unfold McpServer.handle_tools_call HttpTransport.handle_tools_call
  rw [h]
  constructor <;> rfl

/-- Witness for C10: a tools/call whose params carry a numeric name. -/
theorem C10_missing_name_is_unknown_tool_witness :
    McpServer.handle_tools_call trivialManager (some (.num 3))
        (.obj [("name", .num 1)]) =
      JsonRpcResponse.success (some (.num 3))
        (.obj [("content", .arr [.obj [("type", .str "text"),
           ("text", .str ("Error: " ++ ("Unknown tool: " ++ "")))]]),
         ("isError", .bool true)]) ∧
    HttpTransport.handle_tools_call (HttpTransport.AppState.new trivialManager)
        (some (.num 3)) (.obj [("name", .num 1)]) =
      JsonRpcResponse.success (some (.num 3))
        (.obj [("content", .arr [.obj [("type", .str "text"),
           ("text", .str ("Error: " ++ ("Unknown tool: " ++ "")))]]),
         ("isError", .bool true)]) :=
  C10_missing_name_is_unknown_tool (HttpTransport.AppState.new trivialManager)
    trivialManager (some (.num 3)) (.obj [("name", .num 1)]) rfl
